import Mathlib

/-!
Verification development for the markdown-previewer repository.

The definitions below are shallow embeddings of the application-layer logic:
the find-in-pane overlays of the editor and the preview pane, the scroll
synchronizer, the editor autosave debounce, the document store operations,
the sidebar file-import flow, and the auth cool-down. Each definition is
translated from the corresponding source function; comments cite the file
and the behavior being modelled.
-/

namespace MarkdownPreviewer

/-! ## Find-in-pane overlays (Editor and Previewer)

The search effects count occurrences with
`new RegExp(escapeRegExp(searchText), "gi")` applied to the pane text.
`escapeRegExp` escapes every regex metacharacter, so the regex matches
literal occurrences of the search text; the `i` flag folds case and the
`g` flag yields the leftmost non-overlapping matches. We model matching
after ASCII case folding (the embedding does not model Unicode case
folding) on the lists of characters of the two strings. -/

/-- ASCII case folding of a single character, as performed by the
case-insensitive regex flag on ASCII input. -/
def lowerChar (c : Char) : Char :=
  if 65 ≤ c.toNat ∧ c.toNat ≤ 90 then Char.ofNat (c.toNat + 32) else c

/-- Case folding of a whole character list. -/
def foldCase (s : List Char) : List Char := s.map lowerChar

/-- Number of leftmost non-overlapping occurrences of `needle` in `hay`,
exactly as `hay.match(regex).length` computes it for the escaped literal
regex: at each position, if the needle is a prefix of the remaining text,
one match is recorded and matching resumes after the matched segment. The
`fuel` argument (instantiated with the length of the scanned text, which
every step shortens) renders the loop structurally recursive. -/
def countFrom (needle : List Char) : Nat → List Char → Nat
  | _, [] => 0
  | 0, _ :: _ => 0
  | fuel + 1, c :: rest =>
    if needle.isPrefixOf (c :: rest) then
      1 + countFrom needle fuel (List.drop (needle.length - 1) rest)
    else
      countFrom needle fuel rest

/-- Occurrence count of the search text in the pane text, after case
folding; this is the count the two search effects record. -/
def countOccurrences (needle hay : String) : Nat :=
  countFrom (foldCase needle.data) (foldCase hay.data).length (foldCase hay.data)

/-- Modelled from the spec: the number of literal, case-insensitive
occurrences of the search string in the pane text, written independently
of the regex mechanism: scan the folded text left to right; a position
where the folded needle equals the `take` of the remaining text counts as
one occurrence and the scan resumes after it (same structural fuel). -/
def specCountOcc (needle : List Char) : Nat → List Char → Nat
  | _, [] => 0
  | 0, _ :: _ => 0
  | fuel + 1, c :: rest =>
    if needle = [] then 0
    else if List.take needle.length (c :: rest) = needle then
      1 + specCountOcc needle fuel (List.drop needle.length (c :: rest))
    else
      specCountOcc needle fuel rest

/-- Spec-side occurrence count on strings. -/
def specOccurrenceCount (needle hay : String) : Nat :=
  specCountOcc (foldCase needle.data) (foldCase hay.data).length (foldCase hay.data)

/-- The `searchResults` state of both overlays: a match count and the
current zero-based match index (`-1` when there is no match). -/
structure SearchResults where
  count : Nat
  currentIndex : Int
deriving DecidableEq, Repr

/-- The editor search effect (Editor.tsx): when the overlay is hidden or
the search text is empty the results are reset to count 0 / index -1;
otherwise the buffer is scanned and the index reset to 0 when a match
exists, else -1. -/
def editorSearchEffect (showSearch : Bool) (searchText bufferValue : String) :
    SearchResults :=
  if ¬showSearch ∨ searchText = "" then ⟨0, -1⟩
  else
    let c := countOccurrences searchText bufferValue
    ⟨c, if 0 < c then 0 else -1⟩

/-- The previewer search effect (Previewer.tsx): when the overlay is hidden
or the search text is empty the effect returns early WITHOUT touching the
recorded results (unlike the editor, which resets them); otherwise the
rendered pane's plain text is scanned as in the editor. -/
def previewerSearchEffect (showSearch : Bool) (searchText plainText : String)
    (prev : SearchResults) : SearchResults :=
  if ¬showSearch ∨ searchText = "" then prev
  else
    let c := countOccurrences searchText plainText
    ⟨c, if 0 < c then 0 else -1⟩

/-- Editor `goToNextMatch`: a no-op when there are no matches, otherwise
the index advances cyclically modulo the count. -/
def goToNextMatch (s : SearchResults) : SearchResults :=
  if s.count = 0 then s
  else ⟨s.count, (s.currentIndex + 1) % (s.count : Int)⟩

/-- Editor `goToPrevMatch`: a no-op when there are no matches, otherwise
the index retreats cyclically (wrapping through `+ count`). -/
def goToPrevMatch (s : SearchResults) : SearchResults :=
  if s.count = 0 then s
  else ⟨s.count, (s.currentIndex - 1 + (s.count : Int)) % (s.count : Int)⟩

/-- Previewer `scrollToNextMatch`: additionally a no-op when the search
text is empty. -/
def scrollToNextMatch (searchText : String) (s : SearchResults) :
    SearchResults :=
  if searchText = "" ∨ s.count = 0 then s
  else ⟨s.count, (s.currentIndex + 1) % (s.count : Int)⟩

/-- Previewer `scrollToPrevMatch`. -/
def scrollToPrevMatch (searchText : String) (s : SearchResults) :
    SearchResults :=
  if searchText = "" ∨ s.count = 0 then s
  else ⟨s.count, (s.currentIndex - 1 + (s.count : Int)) % (s.count : Int)⟩

/-! ## Overlay state machine

Each overlay operation is a user event handler followed by the re-run of
the pane's search effect whenever the handler changed one of the effect's
dependencies (`searchText`, `showSearch`; the pane text is a parameter). -/

/-- The overlay operations: changing the search text, next/previous
navigation, toggling the overlay button, and the close button. -/
inductive OverlayOp where
  | setQuery (q : String)
  | next
  | prev
  | toggle
  | close
deriving DecidableEq, Repr

/-- Overlay component state shared by both panes. -/
structure OverlayState where
  showSearch : Bool
  searchText : String
  results : SearchResults
deriving DecidableEq, Repr

/-- One editor-overlay operation: the handler runs, then the editor search
effect re-runs when its dependencies changed. `toggleSearch` resets the
text and results only when OPENING (the handler reads the pre-toggle
`showSearch`); when closing via toggle the effect reset still brings the
results to count 0 / index -1. -/
def editorStep (bufferValue : String) (s : OverlayState) (op : OverlayOp) :
    OverlayState :=
  match op with
  | .setQuery q => ⟨s.showSearch, q, editorSearchEffect s.showSearch q bufferValue⟩
  | .next => ⟨s.showSearch, s.searchText, goToNextMatch s.results⟩
  | .prev => ⟨s.showSearch, s.searchText, goToPrevMatch s.results⟩
  | .toggle =>
    if s.showSearch then
      ⟨false, s.searchText, editorSearchEffect false s.searchText bufferValue⟩
    else
      ⟨true, "", editorSearchEffect true "" bufferValue⟩
  | .close => ⟨false, "", editorSearchEffect false "" bufferValue⟩

/-- One previewer-overlay operation; the previewer effect keeps the
previous results in its early-return branch. -/
def previewerStep (plainText : String) (s : OverlayState) (op : OverlayOp) :
    OverlayState :=
  match op with
  | .setQuery q =>
    ⟨s.showSearch, q, previewerSearchEffect s.showSearch q plainText s.results⟩
  | .next => ⟨s.showSearch, s.searchText, scrollToNextMatch s.searchText s.results⟩
  | .prev => ⟨s.showSearch, s.searchText, scrollToPrevMatch s.searchText s.results⟩
  | .toggle =>
    if s.showSearch then
      ⟨false, s.searchText, previewerSearchEffect false s.searchText plainText s.results⟩
    else
      ⟨true, "", previewerSearchEffect true "" plainText ⟨0, -1⟩⟩
  | .close => ⟨false, "", previewerSearchEffect false "" plainText ⟨0, -1⟩⟩

/-- The overlay invariant: the index is -1 exactly when there is no match,
and with matches present the index stays inside `[0, count)`. -/
def resultsInv (r : SearchResults) : Prop :=
  (r.currentIndex = -1 ↔ r.count = 0) ∧
  (0 < r.count → 0 ≤ r.currentIndex ∧ r.currentIndex < (r.count : Int))

/-! ## Scroll synchronizer (App.tsx)

Scroll offsets and pane metrics are modelled over `ℚ` (the idealized
arithmetic of the formula; float rounding is outside the embedding).
The JS guard `scrollHeight - clientHeight || 1` replaces a zero
difference by 1. -/

/-- The two panes coupled by the synchronizer. -/
inductive Pane where
  | editor
  | preview
deriving DecidableEq, Repr

/-- Scroll metrics of one pane as delivered by a scroll event or read from
the DOM of the other pane. -/
structure ScrollInfo where
  scrollTop : ℚ
  scrollHeight : ℚ
  clientHeight : ℚ
deriving DecidableEq, Repr

/-- The `x || 1` guard on a scrollable-range difference. -/
def guardDenom (d : ℚ) : ℚ := if d = 0 then 1 else d

/-- `handleEditorScroll`: bail out when the recorded scroll source is the
preview pane or the preview is hidden; otherwise compute the scroll
percentage of the editor and apply it to the preview's scrollable range,
returning the scroll offset written to the preview pane. -/
def handleEditorScroll (scrollSource : Option Pane) (hidePreview : Bool)
    (e tgt : ScrollInfo) : Option ℚ :=
  if scrollSource = some Pane.preview then none
  else if hidePreview then none
  else some ((e.scrollTop / guardDenom (e.scrollHeight - e.clientHeight)) *
    guardDenom (tgt.scrollHeight - tgt.clientHeight))

/-- `handlePreviewScroll`, symmetric to `handleEditorScroll`. -/
def handlePreviewScroll (scrollSource : Option Pane) (hideEditor : Bool)
    (e tgt : ScrollInfo) : Option ℚ :=
  if scrollSource = some Pane.editor then none
  else if hideEditor then none
  else some ((e.scrollTop / guardDenom (e.scrollHeight - e.clientHeight)) *
    guardDenom (tgt.scrollHeight - tgt.clientHeight))

/-- Modelled from the spec: compute `scrollTop / (scrollHeight -
clientHeight)` treating a zero denominator as 1, then apply that
percentage to the other pane's scrollable range with the same guard. -/
def specSyncTarget (e tgt : ScrollInfo) : ℚ :=
  (e.scrollTop / (if e.scrollHeight - e.clientHeight = 0 then 1
    else e.scrollHeight - e.clientHeight)) *
  (if tgt.scrollHeight - tgt.clientHeight = 0 then 1
    else tgt.scrollHeight - tgt.clientHeight)

/-- A scroll event arriving on the preview pane: the pane's own
`handleScroll` drops it while its `isScrolling` flag (set by a programmatic
scroll) is active; otherwise it reaches `handlePreviewScroll`. -/
def previewScrollEvent (isScrollingPreview : Bool) (scrollSource : Option Pane)
    (hideEditor : Bool) (e tgt : ScrollInfo) : Option ℚ :=
  if isScrollingPreview then none
  else handlePreviewScroll scrollSource hideEditor e tgt

/-- A scroll event arriving on the editor pane, symmetric guard. -/
def editorScrollEvent (isScrollingEditor : Bool) (scrollSource : Option Pane)
    (hidePreview : Bool) (e tgt : ScrollInfo) : Option ℚ :=
  if isScrollingEditor then none
  else handleEditorScroll scrollSource hidePreview e tgt

/-! ## Editor autosave debounce (Editor.tsx)

The autosave effect re-runs on every buffer change. Its cleanup clears
any pending debounce timer; the body re-arms a 500 ms timer only when
autosave is on, the buffer differs from the last-synced content
(`contentRef`) and from the last value that armed the timer
(`previousValueRef`). A firing timer calls `onChange` with the armed value
and records it as synced. The content-sync effect resynchronizes the
buffer from the prop when it changed externally; the autosave condition is
then false, so no timer is armed. Times are in milliseconds. -/

/-- The editor component state relevant to autosave: the buffer, the
last-synced content, the last value that armed the timer, the pending
timer (deadline and the value it will save), and the time of the last
keystroke. -/
structure AutosaveState where
  value : String
  contentR : String
  prevValue : String
  timer : Option (Nat × String)
  lastEdit : Nat
deriving DecidableEq, Repr

/-- Events driving the autosave machine: a keystroke setting the buffer, a
debounce timer firing at a time, and an external content-prop change. -/
inductive AutosaveEvent where
  | keystroke (t : Nat) (v : String)
  | timerFire (t : Nat)
  | propSync (c : String)
deriving DecidableEq, Repr

/-- One step of the autosave machine; the second component is the
persistence call (`onChange`) emitted by the step, if any. -/
def autosaveStep (autoSave : Bool) (s : AutosaveState) (e : AutosaveEvent) :
    AutosaveState × Option (Nat × String) :=
  match e with
  | .keystroke t v =>
    if autoSave ∧ v ≠ s.contentR ∧ s.prevValue ≠ v then
      ({ s with
          value := v
          prevValue := v
          timer := some (t + 500, v)
          lastEdit := t }, none)
    else
      ({ s with value := v, timer := none, lastEdit := t }, none)
  | .timerFire t =>
    match s.timer with
    | some (d, v) =>
      if d ≤ t then ({ s with contentR := v, timer := none }, some (t, v))
      else (s, none)
    | none => (s, none)
  | .propSync c =>
    if c ≠ s.contentR then
      ({ s with value := c, contentR := c, timer := none }, none)
    else (s, none)

/-- Run a list of autosave events, collecting the persistence calls. -/
def autosaveRun (autoSave : Bool) (s : AutosaveState)
    (es : List AutosaveEvent) : AutosaveState × List (Nat × String) :=
  es.foldl (fun p e =>
    let r := autosaveStep autoSave p.1 e
    (r.1, p.2 ++ r.2.toList)) (s, [])

/-- The timer invariant: an armed timer always saves the current buffer
value, and its deadline is 500 ms after the last keystroke. -/
def autosaveInv (s : AutosaveState) : Prop :=
  ∀ d v, s.timer = some (d, v) → v = s.value ∧ d = s.lastEdit + 500

/-! ## Document store selection after delete (AppContext.tsx)

Backend rows are identified by their id; a fetched row additionally
carries a `ref`, modelling JS object identity: every fetch materializes
fresh objects, and React re-runs the document-loading effect only when
`setCurrentDocument` receives a value that is not reference-equal
(`Object.is`) to the current one. -/

/-- A document object held by the client: backend id plus object
identity. -/
structure DocRef where
  id : Nat
  ref : Nat
deriving DecidableEq, Repr

/-- Document-store state: the loaded list, the selection, and the next
fresh object identity. -/
structure StoreState where
  documents : List DocRef
  currentDocument : Option DocRef
  freshRef : Nat
deriving DecidableEq, Repr

/-- Fetching the backend list (ids ordered by last update, most recent
first) materializes fresh objects. -/
def fetchDocs (db : List Nat) (base : Nat) : List DocRef :=
  db.enum.map (fun p => ⟨p.2, base + p.1⟩)

/-- The `loadDocuments` effect body: reload the filtered list; if the
selected document's id is no longer present, fall back to the first item
or to none. -/
def loadEffect (db : List Nat) (s : StoreState) : StoreState :=
  let docs := fetchDocs db s.freshRef
  let s1 : StoreState := ⟨docs, s.currentDocument, s.freshRef + docs.length⟩
  match s.currentDocument with
  | some cur =>
    if docs.all (fun d => d.id ≠ cur.id) then
      { s1 with currentDocument := docs.head? }
    else s1
  | none => s1

/-- Re-run the loading effect as long as the selection reference keeps
changing (it stabilizes after at most two runs; a third run is included
for safety of the model). -/
def settleLoad (db : List Nat) (s : StoreState) : StoreState :=
  let s1 := loadEffect db s
  if s1.currentDocument = s.currentDocument then s1
  else
    let s2 := loadEffect db s1
    if s2.currentDocument = s1.currentDocument then s2 else loadEffect db s2

/-- `deleteCurrentDocument` with a succeeding backend delete: remove the
row, refresh the list, then `setCurrentDocument(documents[0] or null)` —
where `documents` is the closure's PRE-delete list. The loading effect
re-runs only when that assignment changed the selection reference. Returns
the new backend contents and the settled store state. -/
def deleteCurrentModel (db : List Nat) (s : StoreState) :
    List Nat × StoreState :=
  match s.currentDocument with
  | none => (db, s)
  | some cur =>
    let db2 := db.erase cur.id
    let fetched := fetchDocs db2 s.freshRef
    let s1 : StoreState := ⟨fetched, s.documents.head?, s.freshRef + fetched.length⟩
    if s1.currentDocument = s.currentDocument then (db2, s1)
    else (db2, settleLoad db2 s1)

/-! ## Document store operations and error handling (AppContext.tsx,
supabase.ts)

Backend outcomes are modelled explicitly: a call either succeeds, reports
an error through its result object, or throws. `getDocuments` catches the
reported error itself and returns an EMPTY list (supabase.ts line 89);
only a thrown exception propagates to the store operation's catch. -/

/-- A user-visible toast notification. -/
inductive Toast where
  | success (msg : String)
  | failure (msg : String)
deriving DecidableEq, Repr

/-- Outcome of the backend list query underlying `getDocuments`. -/
inductive FetchOutcome where
  | ok (docs : List Nat)
  | errorResult
  | thrown
deriving DecidableEq, Repr

/-- Outcome of the backend upsert underlying `saveDocument` (a missing
user or a reported error both surface as a null result). -/
inductive SaveOutcome where
  | ok (id : Nat)
  | nullResult
  | thrown
deriving DecidableEq, Repr

/-- Outcome of the backend delete underlying `deleteDocument`. -/
inductive DeleteOutcome where
  | ok
  | failed
  | thrown
deriving DecidableEq, Repr

/-- Observable store state for the error-handling claims: the loaded
document list and the selected document, by backend id. -/
structure DocStore where
  documents : List Nat
  currentDocument : Option Nat
deriving DecidableEq, Repr

/-- `getDocuments`: a reported backend error is swallowed and an empty
list returned; `none` models a thrown exception propagating. -/
def getDocumentsModel (r : FetchOutcome) : Option (List Nat) :=
  match r with
  | .ok l => some l
  | .errorResult => some []
  | .thrown => none

/-- `refreshDocuments`: store whatever `getDocuments` returned; only a
thrown exception reaches the catch branch and produces a toast. -/
def refreshDocumentsOp (r : FetchOutcome) (s : DocStore) :
    DocStore × List Toast :=
  match getDocumentsModel r with
  | some docs => ({ s with documents := docs }, [])
  | none => (s, [Toast.failure "Failed to refresh documents. Please try again."])

/-- `createNewDocument`: on a successful save, select the saved document,
refresh, and toast success; a null result or a thrown exception produce an
error toast and no state change. -/
def createNewDocumentOp (save : SaveOutcome) (refresh : FetchOutcome)
    (s : DocStore) : DocStore × List Toast :=
  match save with
  | .ok id =>
    let s1 : DocStore := { s with currentDocument := some id }
    let r := refreshDocumentsOp refresh s1
    (r.1, r.2 ++ [Toast.success "New document created"])
  | .nullResult => (s, [Toast.failure "Failed to create new document"])
  | .thrown =>
    (s, [Toast.failure "Failed to create new document. Please try again."])

/-- `updateCurrentDocument` (content-only autosave path): a no-op without
a selection; on success re-select the saved result and refresh; a null
result or thrown exception produce an error toast and no state change. -/
def updateCurrentDocumentOp (save : SaveOutcome) (refresh : FetchOutcome)
    (s : DocStore) : DocStore × List Toast :=
  match s.currentDocument with
  | none => (s, [])
  | some _ =>
    match save with
    | .ok id =>
      let s1 : DocStore := { s with currentDocument := some id }
      refreshDocumentsOp refresh s1
    | .nullResult => (s, [Toast.failure "Failed to save document"])
    | .thrown =>
      (s, [Toast.failure "Failed to update document. Please try again."])

/-- `deleteCurrentDocument` at the toast/failure level (the selection
fallback after success is studied by `deleteCurrentModel`): a false
success flag or a thrown exception produce an error toast and no state
change. The success toast's interpolated title is elided. -/
def deleteCurrentDocumentOp (del : DeleteOutcome) (refresh : FetchOutcome)
    (s : DocStore) : DocStore × List Toast :=
  match s.currentDocument with
  | none => (s, [])
  | some _ =>
    match del with
    | .ok =>
      let r := refreshDocumentsOp refresh s
      ({ r.1 with currentDocument := s.documents.head? },
        r.2 ++ [Toast.success "Document deleted successfully"])
    | .failed => (s, [Toast.failure "Failed to delete document"])
    | .thrown =>
      (s, [Toast.failure "Failed to delete document. Please try again."])

/-! ## Sidebar file import (Sidebar.tsx) and its save path

`processFiles` accepts a file when its name ends in ".md" or its MIME type
is "text/markdown" or "text/plain". An accepted file is read as text and
wrapped into a fresh document tagged `["imported"]`; `saveNewDocument`
selects that document and calls `updateCurrentDocument` — but that
function is a closure over the PREVIOUSLY selected document, so the upsert
payload spreads the old selection and only overrides content, title and
tags. -/

/-- A file presented to the import flow; `readResult` is the outcome of
reading it as text (`none` models a rejected read promise). -/
structure ImportFile where
  name : String
  mime : String
  readResult : Option String
deriving DecidableEq, Repr

/-- JS `String.prototype.endsWith`, on the character lists. -/
def strEndsWith (s suffix : String) : Bool :=
  suffix.data.isSuffixOf s.data

/-- Removing the last `n` characters of a string. -/
def strDropRight (s : String) (n : Nat) : String :=
  ⟨s.data.take (s.data.length - n)⟩

/-- The acceptance test of `processFiles`. -/
def acceptsFile (f : ImportFile) : Bool :=
  strEndsWith f.name ".md" || f.mime = "text/markdown" || f.mime = "text/plain"

/-- `file.name.replace(".md" at end, "")` used for the imported title. -/
def stripMdExt (n : String) : String :=
  if strEndsWith n ".md" then strDropRight n 3 else n

/-- The fields of a document row as built for an upsert. -/
structure DocFields where
  id : Nat
  title : String
  content : String
  tags : List String
deriving DecidableEq, Repr

/-- The fresh document object the Sidebar wraps an accepted file into. -/
def importedDoc (freshId : Nat) (f : ImportFile) (text : String) : DocFields :=
  ⟨freshId, stripMdExt f.name, text, ["imported"]⟩

/-- The upsert payload `updateCurrentDocument` builds: the (stale) current
document spread with the new content, the title only when truthy
(non-empty), and the tags (a non-empty array is always truthy); without a
current document the function returns before saving. -/
def updatePayload (cur : Option DocFields) (content title : String)
    (tags : List String) : Option DocFields :=
  cur.map (fun c => ⟨c.id, if title = "" then c.title else title, content, tags⟩)

/-- The row actually written when importing one accepted file while
`selected` was the current document at the closure's creation: the
Sidebar's fresh document is handed to `updateCurrentDocument`, which keys
the upsert by the stale selection. -/
def importSavePayload (selected : Option DocFields) (freshId : Nat)
    (f : ImportFile) (text : String) : Option DocFields :=
  let nd := importedDoc freshId f text
  updatePayload selected nd.content nd.title nd.tags

/-! ## Auth cool-down (AuthContext.tsx)

`signIn` and `signUp` each read their own per-kind last-attempt timestamp
from browser-local storage, wait out the remainder of a 3000 ms cool-down
when the previous attempt of the same kind was more recent, then record
the (pre-delay) arrival time and issue the backend request. -/

/-- The persisted per-kind cool-down timestamps. -/
structure AuthStorage where
  lastAuthAttempt : Option Nat
  lastSignupAttempt : Option Nat
deriving DecidableEq, Repr

/-- The time at which the backend request is issued for an attempt
arriving at `now` with persisted previous-attempt time `last`: when less
than 3000 ms have passed, the call sleeps `3000 - (now - last)` ms
first. -/
def cooldownIssueTime (last : Option Nat) (now : Nat) : Nat :=
  match last with
  | none => now
  | some l => if now - l < 3000 then now + (3000 - (now - l)) else now

/-- `signIn`: returns the updated storage (arrival time recorded under the
auth key) and the request issue time. -/
def signInAttempt (st : AuthStorage) (now : Nat) : AuthStorage × Nat :=
  ({ st with lastAuthAttempt := some now },
    cooldownIssueTime st.lastAuthAttempt now)

/-- `signUp`: same cool-down against the signup key. -/
def signUpAttempt (st : AuthStorage) (now : Nat) : AuthStorage × Nat :=
  ({ st with lastSignupAttempt := some now },
    cooldownIssueTime st.lastSignupAttempt now)

/-! ## Theorems -/

/-- The regex-driven count and the spec-side occurrence count agree for a
non-empty needle, for any sufficient fuel. -/
theorem countFrom_eq_specCountOcc (needle : List Char) (h : needle ≠ []) :
    ∀ fuel hay, countFrom needle fuel hay = specCountOcc needle fuel hay := by
  intro fuel
  induction fuel with
  | zero =>
    intro hay
    cases hay with
    | nil => rfl
    | cons c rest => rfl
  | succ n ih =>
    intro hay
    cases hay with
    | nil => rfl
    | cons c rest =>
      rw [countFrom, specCountOcc, if_neg h]
      have hiff : needle.isPrefixOf (c :: rest) = true ↔
          List.take needle.length (c :: rest) = needle := by
        rw [List.isPrefixOf_iff_prefix, List.prefix_iff_eq_take]
        exact ⟨fun hp => hp.symm, fun hp => hp.symm⟩
      by_cases hp : needle.isPrefixOf (c :: rest) = true
      · rw [if_pos hp, if_pos (hiff.mp hp)]
        obtain ⟨k, hk⟩ : ∃ k, needle.length = k + 1 := by
          cases hn : needle with
          | nil => exact absurd hn h
          | cons a l => exact ⟨l.length, by simp [hn]⟩
        rw [hk, List.drop_succ_cons, Nat.add_sub_cancel, ih]
      · rw [if_neg hp, if_neg (fun hq => hp (hiff.mpr hq)), ih]

/-- String-level version of the count agreement. -/
theorem countOccurrences_eq_spec (needle hay : String) (h : needle ≠ "") :
    countOccurrences needle hay = specOccurrenceCount needle hay := by
  have hd : needle.data ≠ [] := by
    intro hd
    exact h (String.ext (hd.trans rfl))
  have hf : foldCase needle.data ≠ [] := by
    simp only [foldCase, ne_eq, List.map_eq_nil_iff]
    exact hd
  exact countFrom_eq_specCountOcc (foldCase needle.data) hf
    (foldCase hay.data).length (foldCase hay.data)

/-- C1 counterexample: in the Preview overlay, searching "a" in pane text
"a" records one match, and then CLEARING the search text leaves the stale
count 1 / index 0 in place instead of resetting to count 0 / index -1, so
the claim's empty-string clause fails for the Preview overlay. -/
theorem C1_counterexample :
    previewerSearchEffect true "" "a"
      (previewerSearchEffect true "a" "a" ⟨0, -1⟩) = ⟨1, 0⟩ ∧
    (⟨1, 0⟩ : SearchResults) ≠ ⟨0, -1⟩ := by
  constructor
  · decide
  · decide

/-- C1 (amended): with the overlay visible, for every NON-empty search
string both overlays record exactly the number of literal, case-insensitive
(non-overlapping) occurrences of the string in the pane's text and set the
index to 0 when a match exists and to -1 otherwise; for the empty search
string the Editor overlay resets to count 0 / index -1 without scanning,
while the Preview overlay leaves the previously recorded match state
unchanged. -/
theorem C1_find_overlay_counts (q text plain : String) (prev : SearchResults) :
    (q ≠ "" →
      editorSearchEffect true q text =
        ⟨specOccurrenceCount q text,
          if 0 < specOccurrenceCount q text then 0 else -1⟩) ∧
    editorSearchEffect true "" text = ⟨0, -1⟩ ∧
    (q ≠ "" →
      previewerSearchEffect true q plain prev =
        ⟨specOccurrenceCount q plain,
          if 0 < specOccurrenceCount q plain then 0 else -1⟩) ∧
    previewerSearchEffect true "" plain prev = prev := by
  refine ⟨?_, ?_, ?_, ?_⟩
  · intro hq
    simp [editorSearchEffect, countOccurrences_eq_spec q text hq, hq]
  · simp [editorSearchEffect]
  · intro hq
    simp [previewerSearchEffect, countOccurrences_eq_spec q plain hq, hq]
  · simp [previewerSearchEffect]

/-- C1 witness: the amended statement evaluated on a concrete input: the
editor overlay searching "ab" in "xAbab" records the two case-insensitive
occurrences and index 0. -/
theorem C1_witness :
    editorSearchEffect true "ab" "xAbab" =
      ⟨specOccurrenceCount "ab" "xAbab",
        if 0 < specOccurrenceCount "ab" "xAbab" then 0 else -1⟩ ∧
    specOccurrenceCount "ab" "xAbab" = 2 :=
  ⟨(C1_find_overlay_counts "ab" "xAbab" "" ⟨0, -1⟩).1 (by decide), by decide⟩

/-- Adding the modulus on the left of an `emod` does not change it. -/
theorem add_self_emod (i c : Int) : (i + c) % c = i % c := by
  have h := Int.add_mul_emod_self_left i c 1
  rwa [Int.mul_one] at h

/-- Iterating `goToNextMatch` advances the index by the iteration count,
modulo the match count. -/
theorem goToNextMatch_iterate (c : Nat) (i : Int) (hc : 0 < c) (h0 : 0 ≤ i)
    (hlt : i < (c : Int)) :
    ∀ n, goToNextMatch^[n] ⟨c, i⟩ = ⟨c, (i + n) % (c : Int)⟩ := by
  intro n
  induction n with
  | zero => simp [Int.emod_eq_of_lt h0 hlt]
  | succ n ih =>
    rw [Function.iterate_succ_apply', ih, goToNextMatch]
    rw [if_neg (by omega : ¬c = 0)]
    simp only [SearchResults.mk.injEq, true_and]
    rw [Int.emod_add_emod]
    congr 1
    push_cast
    ring

/-- With a non-empty search text the previewer navigation agrees with the
editor navigation. -/
theorem scrollNav_eq_editorNav (q : String) (hq : q ≠ "") :
    (∀ s, scrollToNextMatch q s = goToNextMatch s) ∧
    (∀ s, scrollToPrevMatch q s = goToPrevMatch s) := by
  constructor <;> intro s <;>
    simp [scrollToNextMatch, goToNextMatch, scrollToPrevMatch, goToPrevMatch, hq]

/-- C2: with a positive match count and an index inside `[0, count)`,
"next" applied `count` times returns to the original index; "previous"
then "next" (and "next" then "previous") leave the state unchanged; both
operations wrap at the ends; and the Preview overlay's navigation behaves
identically to the Editor's whenever its search text is non-empty. -/
theorem C2_cyclic_navigation (c : Nat) (i : Int) (q : String) (hc : 0 < c)
    (h0 : 0 ≤ i) (hlt : i < (c : Int)) (hq : q ≠ "") :
    goToNextMatch^[c] ⟨c, i⟩ = ⟨c, i⟩ ∧
    goToNextMatch (goToPrevMatch ⟨c, i⟩) = ⟨c, i⟩ ∧
    goToPrevMatch (goToNextMatch ⟨c, i⟩) = ⟨c, i⟩ ∧
    goToNextMatch ⟨c, (c : Int) - 1⟩ = ⟨c, 0⟩ ∧
    goToPrevMatch ⟨c, 0⟩ = ⟨c, (c : Int) - 1⟩ ∧
    scrollToNextMatch q ⟨c, i⟩ = goToNextMatch ⟨c, i⟩ ∧
    scrollToPrevMatch q ⟨c, i⟩ = goToPrevMatch ⟨c, i⟩ ∧
    (fun s => scrollToNextMatch q s)^[c] ⟨c, i⟩ = ⟨c, i⟩ := by
  have hcz : ¬c = 0 := by omega
  have hcpos : (0 : Int) < (c : Int) := by exact_mod_cast hc
  have hiter : goToNextMatch^[c] ⟨c, i⟩ = ⟨c, i⟩ := by
    rw [goToNextMatch_iterate c i hc h0 hlt c, add_self_emod,
      Int.emod_eq_of_lt h0 hlt]
  refine ⟨hiter, ?_, ?_, ?_, ?_, (scrollNav_eq_editorNav q hq).1 _,
    (scrollNav_eq_editorNav q hq).2 _, ?_⟩
  · rw [goToPrevMatch, if_neg hcz, goToNextMatch, if_neg hcz]
    simp only [SearchResults.mk.injEq, true_and]
    rw [Int.emod_add_emod]
    have harr : i - 1 + (c : Int) + 1 = i + (c : Int) := by ring
    rw [harr, add_self_emod, Int.emod_eq_of_lt h0 hlt]
  · rw [goToNextMatch, if_neg hcz, goToPrevMatch, if_neg hcz]
    simp only [SearchResults.mk.injEq, true_and]
    have harr : (i + 1) % (c : Int) - 1 + (c : Int) =
        (i + 1) % (c : Int) + ((c : Int) - 1) := by ring
    rw [harr, Int.emod_add_emod]
    have harr2 : i + 1 + ((c : Int) - 1) = i + (c : Int) := by ring
    rw [harr2, add_self_emod, Int.emod_eq_of_lt h0 hlt]
  · rw [goToNextMatch, if_neg hcz]
    simp only [SearchResults.mk.injEq, true_and]
    have harr : (c : Int) - 1 + 1 = (c : Int) := by ring
    rw [harr, Int.emod_self]
  · rw [goToPrevMatch, if_neg hcz]
    simp only [SearchResults.mk.injEq, true_and]
    have harr : (0 : Int) - 1 + (c : Int) = (c : Int) - 1 := by ring
    rw [harr, Int.emod_eq_of_lt (by omega) (by omega)]
  · have hfun : (fun s => scrollToNextMatch q s) = goToNextMatch :=
      funext (scrollNav_eq_editorNav q hq).1
    rw [hfun]
    exact hiter

/-- C2 witness: the cyclic-navigation theorem applied at count 2,
index 0, search text "a". -/
theorem C2_witness :
    (0 < 2 ∧ (0 : Int) ≤ 0 ∧ (0 : Int) < 2 ∧ "a" ≠ "") ∧
    goToNextMatch^[2] (⟨2, 0⟩ : SearchResults) = ⟨2, 0⟩ :=
  ⟨⟨by decide, by decide, by decide, by decide⟩,
    (C2_cyclic_navigation 2 0 "a" (by decide) (by decide) (by decide)
      (by decide)).1⟩

/-- The empty result state satisfies the overlay invariant. -/
theorem resultsInv_none : resultsInv ⟨0, -1⟩ := by
  refine ⟨by simp, ?_⟩
  intro h
  simp at h

/-- A freshly computed result record satisfies the overlay invariant. -/
theorem resultsInv_fresh (c : Nat) :
    resultsInv ⟨c, if 0 < c then 0 else -1⟩ := by
  by_cases hc : 0 < c
  · constructor
    · simp [hc]
      omega
    · intro h
      exact ⟨by simp [hc], by simp [hc]⟩
  · have hc0 : c = 0 := by omega
    subst hc0
    exact resultsInv_none

/-- The editor search effect always outputs invariant-respecting
results. -/
theorem resultsInv_editorEffect (ss : Bool) (q t : String) :
    resultsInv (editorSearchEffect ss q t) := by
  rw [editorSearchEffect]
  split
  · exact resultsInv_none
  · exact resultsInv_fresh _

/-- The previewer search effect preserves the overlay invariant. -/
theorem resultsInv_previewerEffect (ss : Bool) (q t : String)
    (prev : SearchResults) (hp : resultsInv prev) :
    resultsInv (previewerSearchEffect ss q t prev) := by
  rw [previewerSearchEffect]
  split
  · exact hp
  · exact resultsInv_fresh _

/-- Cyclic advancement keeps the index inside the invariant range. -/
theorem resultsInv_emod (c : Nat) (j : Int) (hc : ¬c = 0) :
    resultsInv ⟨c, j % (c : Int)⟩ := by
  have hcz : (c : Int) ≠ 0 := by exact_mod_cast hc
  have hcpos : (0 : Int) < (c : Int) := by
    have : 0 < c := Nat.pos_of_ne_zero hc
    exact_mod_cast this
  have hnn := Int.emod_nonneg j hcz
  have hlt := Int.emod_lt_of_pos j hcpos
  refine ⟨⟨fun he => ?_, fun h0 => absurd h0 hc⟩, fun _ => ⟨hnn, hlt⟩⟩
  have he2 : j % (c : Int) = -1 := he
  omega

/-- `goToNextMatch` preserves the overlay invariant. -/
theorem resultsInv_next (s : SearchResults) (h : resultsInv s) :
    resultsInv (goToNextMatch s) := by
  rw [goToNextMatch]
  split
  · exact h
  · exact resultsInv_emod s.count _ (by assumption)

/-- `goToPrevMatch` preserves the overlay invariant. -/
theorem resultsInv_prev (s : SearchResults) (h : resultsInv s) :
    resultsInv (goToPrevMatch s) := by
  rw [goToPrevMatch]
  split
  · exact h
  · exact resultsInv_emod s.count _ (by assumption)

/-- `scrollToNextMatch` preserves the overlay invariant. -/
theorem resultsInv_scrollNext (q : String) (s : SearchResults)
    (h : resultsInv s) : resultsInv (scrollToNextMatch q s) := by
  rw [scrollToNextMatch]
  split
  · exact h
  · rename_i hcond
    push_neg at hcond
    exact resultsInv_emod s.count _ hcond.2

/-- `scrollToPrevMatch` preserves the overlay invariant. -/
theorem resultsInv_scrollPrev (q : String) (s : SearchResults)
    (h : resultsInv s) : resultsInv (scrollToPrevMatch q s) := by
  rw [scrollToPrevMatch]
  split
  · exact h
  · rename_i hcond
    push_neg at hcond
    exact resultsInv_emod s.count _ hcond.2

/-- C10: every overlay operation of either pane preserves the invariant
"index = -1 exactly when the count is 0, and with matches present the
index lies in [0, count)", and next/previous are no-ops when the count
is 0. -/
theorem C10_overlay_invariant (bufferValue plainText : String)
    (s : OverlayState) (op : OverlayOp) (h : resultsInv s.results) :
    resultsInv (editorStep bufferValue s op).results ∧
    resultsInv (previewerStep plainText s op).results ∧
    (s.results.count = 0 →
      editorStep bufferValue s .next = s ∧
      editorStep bufferValue s .prev = s ∧
      previewerStep plainText s .next = s ∧
      previewerStep plainText s .prev = s) := by
  refine ⟨?_, ?_, ?_⟩
  · cases op with
    | setQuery q => exact resultsInv_editorEffect _ _ _
    | next => exact resultsInv_next _ h
    | prev => exact resultsInv_prev _ h
    | toggle =>
      rw [editorStep]
      split
      · exact resultsInv_editorEffect _ _ _
      · exact resultsInv_editorEffect _ _ _
    | close => exact resultsInv_editorEffect _ _ _
  · cases op with
    | setQuery q => exact resultsInv_previewerEffect _ _ _ _ h
    | next => exact resultsInv_scrollNext _ _ h
    | prev => exact resultsInv_scrollPrev _ _ h
    | toggle =>
      rw [previewerStep]
      split
      · exact resultsInv_previewerEffect _ _ _ _ h
      · exact resultsInv_previewerEffect _ _ _ _ resultsInv_none
    | close => exact resultsInv_previewerEffect _ _ _ _ resultsInv_none
  · intro hc
    refine ⟨?_, ?_, ?_, ?_⟩
    · show (⟨s.showSearch, s.searchText, goToNextMatch s.results⟩ :
        OverlayState) = s
      rw [goToNextMatch, if_pos hc]
    · show (⟨s.showSearch, s.searchText, goToPrevMatch s.results⟩ :
        OverlayState) = s
      rw [goToPrevMatch, if_pos hc]
    · show (⟨s.showSearch, s.searchText,
        scrollToNextMatch s.searchText s.results⟩ : OverlayState) = s
      rw [scrollToNextMatch, if_pos (Or.inr hc)]
    · show (⟨s.showSearch, s.searchText,
        scrollToPrevMatch s.searchText s.results⟩ : OverlayState) = s
      rw [scrollToPrevMatch, if_pos (Or.inr hc)]

/-- C10 witness: the invariant theorem applied to the freshly opened
overlay state and a "next" operation. -/
theorem C10_witness :
    resultsInv (⟨3, 0⟩ : SearchResults) ∧
    resultsInv (editorStep "abc" ⟨true, "x", ⟨3, 0⟩⟩ OverlayOp.next).results := by
  have hinv : resultsInv (⟨3, 0⟩ : SearchResults) :=
    ⟨by simp, fun h => ⟨by simp, by simp⟩⟩
  exact ⟨hinv, (C10_overlay_invariant "abc" "abc" ⟨true, "x", ⟨3, 0⟩⟩
    OverlayOp.next hinv).1⟩

/-- C3: whenever a cross-pane write happens (the re-entrancy source allows
it and the target pane is visible), both scroll handlers write exactly the
spec's value: the source's `scrollTop / (scrollHeight - clientHeight)`
ratio — a zero denominator replaced by 1 — times the target's guarded
scrollable range. -/
theorem C3_scroll_sync_formula (src : Option Pane) (hidePrev hideEd : Bool)
    (e tgt : ScrollInfo) :
    (src ≠ some Pane.preview → hidePrev = false →
      handleEditorScroll src hidePrev e tgt = some (specSyncTarget e tgt)) ∧
    (src ≠ some Pane.editor → hideEd = false →
      handlePreviewScroll src hideEd e tgt = some (specSyncTarget e tgt)) := by
  constructor
  · intro h1 h2
    subst h2
    simp [handleEditorScroll, h1, specSyncTarget, guardDenom]
  · intro h1 h2
    subst h2
    simp [handlePreviewScroll, h1, specSyncTarget, guardDenom]

/-- C3 witness: the formula theorem applied at a concrete scroll event
(30 of 100 scrollable in the editor maps to 60 of 200 in the preview). -/
theorem C3_witness :
    handleEditorScroll none false ⟨30, 110, 10⟩ ⟨0, 250, 50⟩ =
      some (specSyncTarget ⟨30, 110, 10⟩ ⟨0, 250, 50⟩) ∧
    specSyncTarget ⟨30, 110, 10⟩ ⟨0, 250, 50⟩ = 60 :=
  ⟨(C3_scroll_sync_formula none false false ⟨30, 110, 10⟩ ⟨0, 250, 50⟩).1
      (by decide) rfl,
    by norm_num [specSyncTarget]⟩

/-- C4: a scroll event arriving on a pane while the re-entrancy guard is
active — the pane's own is-scrolling flag set by a programmatic scroll, or
the recorded scroll source naming the other pane — produces no programmatic
adjustment of the other pane. -/
theorem C4_no_scroll_feedback (isScrollingPrev isScrollingEd : Bool)
    (src : Option Pane) (hideEd hidePrev : Bool) (e tgt : ScrollInfo) :
    ((isScrollingPrev = true ∨ src = some Pane.editor) →
      previewScrollEvent isScrollingPrev src hideEd e tgt = none) ∧
    ((isScrollingEd = true ∨ src = some Pane.preview) →
      editorScrollEvent isScrollingEd src hidePrev e tgt = none) := by
  constructor
  · rintro (h | h)
    · subst h
      rfl
    · cases isScrollingPrev <;>
        simp [previewScrollEvent, handlePreviewScroll, h]
  · rintro (h | h)
    · subst h
      rfl
    · cases isScrollingEd <;>
        simp [editorScrollEvent, handleEditorScroll, h]

/-- C4 witness: a preview scroll event arriving while the preview's
is-scrolling flag is active produces no editor adjustment. -/
theorem C4_witness :
    previewScrollEvent true none false ⟨5, 20, 10⟩ ⟨0, 20, 10⟩ = none :=
  (C4_no_scroll_feedback true false none false false ⟨5, 20, 10⟩
    ⟨0, 20, 10⟩).1 (Or.inl rfl)

/-- C5 counterexample: from a synced buffer "a", the keystroke sequence
"ab", "a", "ab" followed by a long quiet period issues NO persistence call
even though the final buffer "ab" differs from the saved content "a": the
second arrival of "ab" fails the `previousValueRef` guard, so no timer is
re-armed (and the claim's "exactly one call after a quiet period" also
fails for sequences that return to the synced content). -/
theorem C5_counterexample :
    (autosaveRun true ⟨"a", "a", "a", none, 0⟩
      [AutosaveEvent.keystroke 100 "ab", AutosaveEvent.keystroke 200 "a",
        AutosaveEvent.keystroke 300 "ab", AutosaveEvent.timerFire 1000]).2
      = [] ∧
    (autosaveRun true ⟨"a", "a", "a", none, 0⟩
      [AutosaveEvent.keystroke 100 "ab", AutosaveEvent.keystroke 200 "a",
        AutosaveEvent.keystroke 300 "ab", AutosaveEvent.timerFire 1000]).1.value
      = "ab" ∧
    (autosaveRun true ⟨"a", "a", "a", none, 0⟩
      [AutosaveEvent.keystroke 100 "ab", AutosaveEvent.keystroke 200 "a",
        AutosaveEvent.keystroke 300 "ab",
        AutosaveEvent.timerFire 1000]).1.contentR = "a" := by
  refine ⟨by decide, by decide, by decide⟩

/-- C5 (amended): keystrokes never persist directly; every persistence
call is emitted by a timer firing at least 500 ms after the last
keystroke, carries the buffer value current at that moment, marks it
synced and disarms the timer (so at most one call follows a quiet
period); an external content-prop change resynchronizes the buffer and
cancels any pending autosave without emitting one; and a keystroke arms
the 500 ms debounce timer exactly when autosave is on and its value
differs from both the last-synced content and the previously recorded
buffer value. -/
theorem C5_autosave_debounce (auto : Bool) (s : AutosaveState)
    (e : AutosaveEvent) (hinv : autosaveInv s) :
    autosaveInv (autosaveStep auto s e).1 ∧
    (∀ t v, (autosaveStep auto s e).2 = some (t, v) →
      v = s.value ∧ s.lastEdit + 500 ≤ t ∧
      (autosaveStep auto s e).1.contentR = v ∧
      (autosaveStep auto s e).1.timer = none) ∧
    (∀ t v, (autosaveStep auto s (AutosaveEvent.keystroke t v)).2 = none) ∧
    (∀ c, c ≠ s.contentR →
      autosaveStep auto s (AutosaveEvent.propSync c) =
        ({ s with value := c, contentR := c, timer := none }, none)) ∧
    (∀ t v, auto = true → v ≠ s.contentR → s.prevValue ≠ v →
      (autosaveStep auto s (AutosaveEvent.keystroke t v)).1.timer =
        some (t + 500, v)) := by
  refine ⟨?_, ?_, ?_, ?_, ?_⟩
  · cases e with
    | keystroke t v =>
      rw [autosaveStep]
      split
      · intro d v' heq
        simp only [Option.some.injEq, Prod.mk.injEq] at heq
        exact ⟨heq.2.symm, show d = t + 500 from heq.1.symm⟩
      · intro d v' heq
        simp at heq
    | timerFire t =>
      rw [autosaveStep]
      split
      · split
        · intro d v' heq
          simp at heq
        · exact hinv
      · exact hinv
    | propSync c =>
      rw [autosaveStep]
      split
      · intro d v' heq
        simp at heq
      · exact hinv
  · cases e with
    | keystroke t v =>
      intro t' v' heq
      rw [autosaveStep] at heq
      split at heq <;> simp at heq
    | timerFire t =>
      intro t' v' heq
      rw [autosaveStep] at heq
      split at heq
      · rename_i d v0 htimer
        split at heq
        · rename_i hd
          simp only [Option.some.injEq, Prod.mk.injEq] at heq
          obtain ⟨rfl, rfl⟩ := heq
          obtain ⟨hv, hdedl⟩ := hinv d v0 htimer
          refine ⟨hv, by omega, ?_, ?_⟩
          · rw [autosaveStep, htimer]
            simp [hd]
          · rw [autosaveStep, htimer]
            simp [hd]
        · simp at heq
      · simp at heq
    | propSync c =>
      intro t' v' heq
      rw [autosaveStep] at heq
      split at heq <;> simp at heq
  · intro t v
    rw [autosaveStep]
    split <;> rfl
  · intro c hc
    rw [autosaveStep, if_pos hc]
  · intro t v hauto hv hprev
    rw [autosaveStep, if_pos ⟨hauto, hv, hprev⟩]

/-- C5 witness: the amended theorem applied to a synced state and a
keystroke "y" at time 7, which arms the debounce timer for time 507. -/
theorem C5_witness :
    (autosaveStep true ⟨"x", "x", "x", none, 0⟩
      (AutosaveEvent.keystroke 7 "y")).1.timer = some (7 + 500, "y") := by
  have hinv : autosaveInv ⟨"x", "x", "x", none, 0⟩ := by
    intro d v h
    simp at h
  exact (C5_autosave_debounce true ⟨"x", "x", "x", none, 0⟩
    (AutosaveEvent.keystroke 7 "y") hinv).2.2.2.2 7 "y" rfl (by decide)
    (by decide)

/-- C6: evaluating the delete path at its failing input. One backend
document (id 7) is loaded and selected; deleting it succeeds at the
backend and the reloaded list is empty, yet the deleted document REMAINS
selected: `setCurrentDocument(documents[0])` reads the stale pre-delete
list, passes the very object already selected, so React bails out and the
reload effect that would reset the selection never re-runs. The claim
requires the selection to become none here. -/
theorem C6_delete_keeps_deleted_selection :
    (deleteCurrentModel [7] ⟨[⟨7, 0⟩], some ⟨7, 0⟩, 1⟩).2.currentDocument =
      some ⟨7, 0⟩ ∧
    (deleteCurrentModel [7] ⟨[⟨7, 0⟩], some ⟨7, 0⟩, 1⟩).2.documents = [] ∧
    (deleteCurrentModel [7] ⟨[⟨7, 0⟩], some ⟨7, 0⟩, 1⟩).1 = [] := by
  refine ⟨by decide, by decide, by decide⟩

/-- C7 counterexample: a refresh whose backend list query reports an error
replaces the loaded document list by the empty list and emits NO
notification — `getDocuments` swallows the error object and returns `[]`
— contradicting "every failing operation notifies and leaves state
unchanged". -/
theorem C7_counterexample :
    (refreshDocumentsOp FetchOutcome.errorResult ⟨[5], some 5⟩).1 =
      (⟨[], some 5⟩ : DocStore) ∧
    (⟨[], some 5⟩ : DocStore) ≠ ⟨[5], some 5⟩ ∧
    (refreshDocumentsOp FetchOutcome.errorResult ⟨[5], some 5⟩).2 = [] := by
  refine ⟨by decide, by decide, by decide⟩

/-- C7 (amended): when the backend call THROWS (or reports a null/false
result to the operation itself), every store operation emits an error
toast and leaves the observable state exactly unchanged; but a backend
error reported through the list query's result object is swallowed by
`getDocuments`, so a refresh then silently replaces the document list with
the empty list (see the counterexample). -/
theorem C7_failure_leaves_state (s : DocStore) (r : FetchOutcome) (d : Nat) :
    refreshDocumentsOp FetchOutcome.thrown s =
      (s, [Toast.failure "Failed to refresh documents. Please try again."]) ∧
    createNewDocumentOp SaveOutcome.thrown r s =
      (s, [Toast.failure "Failed to create new document. Please try again."]) ∧
    createNewDocumentOp SaveOutcome.nullResult r s =
      (s, [Toast.failure "Failed to create new document"]) ∧
    (s.currentDocument = some d →
      updateCurrentDocumentOp SaveOutcome.thrown r s =
        (s, [Toast.failure "Failed to update document. Please try again."]) ∧
      updateCurrentDocumentOp SaveOutcome.nullResult r s =
        (s, [Toast.failure "Failed to save document"]) ∧
      deleteCurrentDocumentOp DeleteOutcome.thrown r s =
        (s, [Toast.failure "Failed to delete document. Please try again."]) ∧
      deleteCurrentDocumentOp DeleteOutcome.failed r s =
        (s, [Toast.failure "Failed to delete document"])) := by
  refine ⟨rfl, rfl, rfl, ?_⟩
  intro hd
  refine ⟨?_, ?_, ?_, ?_⟩
  · simp [updateCurrentDocumentOp, hd]
  · simp [updateCurrentDocumentOp, hd]
  · simp [deleteCurrentDocumentOp, hd]
  · simp [deleteCurrentDocumentOp, hd]

/-- C7 witness: the amended theorem applied to a store holding document 5,
whose update throws. -/
theorem C7_witness :
    (⟨[5], some 5⟩ : DocStore).currentDocument = some 5 ∧
    updateCurrentDocumentOp SaveOutcome.thrown (FetchOutcome.ok [])
      ⟨[5], some 5⟩ =
      (⟨[5], some 5⟩,
        [Toast.failure "Failed to update document. Please try again."]) :=
  ⟨rfl, ((C7_failure_leaves_state ⟨[5], some 5⟩ (FetchOutcome.ok []) 5).2.2.2
    rfl).1⟩

/-- C8: evaluating the import path at its failing input. The file
"notes.md" is accepted and wrapped with fresh id 99 and tag "imported",
but the row actually upserted carries the id of the PREVIOUSLY selected
document 42 — import overwrites the selected document's title, content
and tags instead of creating a new one — and with no prior selection
nothing is saved at all. The claim requires a NEW document. -/
theorem C8_import_overwrites_selection :
    acceptsFile ⟨"notes.md", "text/markdown", some "hello"⟩ = true ∧
    importSavePayload (some ⟨42, "Old", "old text", []⟩) 99
      ⟨"notes.md", "text/markdown", some "hello"⟩ "hello" =
      some ⟨42, "notes", "hello", ["imported"]⟩ ∧
    importSavePayload none 99 ⟨"notes.md", "text/markdown", some "hello"⟩
      "hello" = none := by
  refine ⟨by decide, by decide, rfl⟩

/-- C9: the per-kind cool-down: whenever a previous attempt of the same
kind is recorded at time `l`, the backend request of a new attempt at
`now` is issued no earlier than `l + 3000` ms; each kind's attempt leaves
the other kind's timestamp untouched and records its own arrival time;
and two authenticate calls 1000 ms apart issue the second request exactly
3000 ms after the first. -/
theorem C9_auth_cooldown (st : AuthStorage) (l now : Nat) (hl : l ≤ now) :
    (st.lastAuthAttempt = some l → l + 3000 ≤ (signInAttempt st now).2) ∧
    (st.lastSignupAttempt = some l → l + 3000 ≤ (signUpAttempt st now).2) ∧
    (signInAttempt st now).1.lastSignupAttempt = st.lastSignupAttempt ∧
    (signUpAttempt st now).1.lastAuthAttempt = st.lastAuthAttempt ∧
    (signInAttempt st now).1.lastAuthAttempt = some now ∧
    (st.lastAuthAttempt = none →
      (signInAttempt st now).2 = now ∧
      (signInAttempt (signInAttempt st now).1 (now + 1000)).2 =
        now + 3000) := by
  refine ⟨?_, ?_, rfl, rfl, rfl, ?_⟩
  · intro h
    show l + 3000 ≤ cooldownIssueTime st.lastAuthAttempt now
    rw [h, cooldownIssueTime]
    split <;> omega
  · intro h
    show l + 3000 ≤ cooldownIssueTime st.lastSignupAttempt now
    rw [h, cooldownIssueTime]
    split <;> omega
  · intro h
    constructor
    · show cooldownIssueTime st.lastAuthAttempt now = now
      rw [h, cooldownIssueTime]
    · show cooldownIssueTime (some now) (now + 1000) = now + 3000
      rw [cooldownIssueTime, if_pos (by omega)]
      omega

/-- C9 witness: the cool-down theorem applied to empty storage: a first
authenticate at 5000 ms issues immediately, a second 1000 ms later is
delayed to 8000 ms. -/
theorem C9_witness :
    ((⟨none, none⟩ : AuthStorage).lastAuthAttempt = none) ∧
    (signInAttempt ⟨none, none⟩ 5000).2 = 5000 ∧
    (signInAttempt (signInAttempt ⟨none, none⟩ 5000).1 (5000 + 1000)).2 =
      5000 + 3000 :=
  ⟨rfl, (C9_auth_cooldown ⟨none, none⟩ 0 5000 (by decide)).2.2.2.2.2 rfl⟩

end MarkdownPreviewer
